import Mathlib

/-!
# Shallow embedding of the `ais_manager` supervision engine

This file embeds the parts of the `ais_manager` repository that the
verified properties below are about:

* the status classifier `calculate_uptime` / `check_balances`
  (`src/applications/monitor.rs`),
* the per-entry body of the state-import passes `update_client_state`
  (`src/applications/monitor.rs`),
* the lifecycle controller `stop_application` / `send_stop`
  (`src/applications/start_stop.rs`),
* the command dispatcher `command_processor` (`src/network.rs`),
* the client-application name filter of `resolve_client_applications`
  (`src/applications/resolve.rs`),
* the registry maintenance functions `trim` (`src/status.rs`) and
  `deregister_app` (`src/main.rs`).

Conventions of the embedding:

* `u64` timestamps and PIDs become `Nat`; `current_timestamp()` becomes an
  explicit `now : Nat` argument; `u64` subtraction appears only as
  `now - 30` and `now - app.timestamp`, modelled by truncated `Nat`
  subtraction (the source assumes epoch timestamps far above 30).
* `is_pid_active : i32 -> Result<bool>` becomes an oracle
  `pidLive : Nat → Option Bool`; `none` models the `Err` case.
* `HashMap<Stringy, V>` becomes an association list `List (String × V)`
  whose order models the map's iteration order; `Stringy` is `String`.
* Fallible operations return `Except` / `Option`; process-level side
  effects (signals, kills) are returned as explicit effect lists.
* The accessor methods of the `artisan_middleware` dependency
  (`set_status`, `get_status`, `no_errors`, `clear_errors`,
  `update_state`, `get_pid`, `get_name`, `is_system_application`) are not
  part of this repository; they are modelled from the spec's data model
  (§3) as plain field accessors on `AppStatus.app_data.state`.
-/

namespace AisManager

/-- The closed status set of the spec (§3) and of
`artisan_middleware::aggregator::Status`. -/
inductive Status where
  | Running
  | Idle
  | Warning
  | Stopping
  | Stopped
  | Starting
  | Unknown
deriving DecidableEq, Repr

/-- One entry of an application's error log
(`ErrorArrayItem { err_type, err_mesg }`). -/
structure ErrorItem where
  err_type : String
  err_mesg : String
deriving DecidableEq, Repr

/-- The fields of the persisted `AppState` (spec §3) that the verified
code paths read or write. `f32`-free. -/
structure AppState where
  name : String
  pid : Nat
  status : Status
  last_updated : Nat
  system_application : Bool
  error_log : List ErrorItem
  stdout : List String
  stderr : List String
deriving DecidableEq, Repr

/-- `Metrics { cpu_usage, memory_usage }`; the source stores `f32`
samples, modelled as `Nat` — every verified property only distinguishes
`Some`/`None` on the `metrics` field. -/
structure Metrics where
  cpu_usage : Nat
  memory_usage : Nat
deriving DecidableEq, Repr

/-- Modelled from the spec: `ApplicationConfig` bundles the app's
last-persisted `AppState` (§3); only the `state` component is touched by
the verified code paths. -/
structure ApplicationConfig where
  state : AppState
deriving DecidableEq, Repr

/-- The live per-app registry entry
(`artisan_middleware::aggregator::AppStatus`, spec §3). -/
structure AppStatus where
  app_id : String
  app_data : ApplicationConfig
  uptime : Option Nat
  metrics : Option Metrics
  timestamp : Nat
deriving DecidableEq, Repr

namespace AppStatus

/-- Modelled from the spec: `app.app_data.get_status()` reads the status
of the bundled state (§3). -/
def get_status (app : AppStatus) : Status :=
  app.app_data.state.status

/-- Modelled from the spec: `app.app_data.set_status(s)` writes the
status of the bundled state (§3). -/
def set_status (app : AppStatus) (s : Status) : AppStatus :=
  { app with app_data := { app.app_data with
      state := { app.app_data.state with status := s } } }

/-- Modelled from the spec: `app.app_data.get_pid()` reads the PID of the
bundled state (§3). -/
def get_pid (app : AppStatus) : Nat :=
  app.app_data.state.pid

/-- Modelled from the spec: `app.app_data.no_errors()` holds when the
bundled state's error log is empty (§3, §4.5). -/
def no_errors (app : AppStatus) : Bool :=
  app.app_data.state.error_log.isEmpty

/-- Modelled from the spec: `app.app_data.clear_errors()` empties the
bundled state's error log (§4.5). -/
def clear_errors (app : AppStatus) : AppStatus :=
  { app with app_data := { app.app_data with
      state := { app.app_data.state with error_log := [] } } }

/-- Modelled from the spec: `app.app_data.update_state(state)` pulls the
latest state wholesale into the bundle (§4.5 phase 6: "pull the latest
state (status, error log, stdout, stderr)"). -/
def update_state (app : AppStatus) (s : AppState) : AppStatus :=
  { app with app_data := { app.app_data with state := s } }

/-- `app.app_data.state.error_log.push(e)` of the source. -/
def push_error (app : AppStatus) (e : ErrorItem) : AppStatus :=
  { app with app_data := { app.app_data with
      state := { app.app_data.state with
        error_log := app.app_data.state.error_log ++ [e] } } }

end AppStatus

/-- `check_balances` of `src/applications/monitor.rs`: four sequential
conditionals, each observing the preceding mutation. -/
def check_balances (now : Nat) (app : AppStatus) : AppStatus :=
  let app :=
    if app.get_status = Status.Stopped then
      { app with timestamp := now, uptime := none }
    else app
  let app :=
    if app.get_status = Status.Running ∧ app.no_errors = false then
      app.set_status Status.Warning
    else app
  let app :=
    if app.get_status = Status.Unknown ∨ app.get_status = Status.Stopped then
      { app.clear_errors with metrics := none, timestamp := now }
    else app
  if app.get_status = Status.Stopping then app.set_status Status.Stopped
  else app

/-- The part of `calculate_uptime` after its opening `check_balances`
call (split out so that proofs can treat the `check_balances` result as
opaque). -/
def calculate_uptime_tail (now : Nat) (pidLive : Nat → Option Bool)
    (app : AppStatus) (state : AppState) : AppStatus :=
  let timedout : Bool := decide (state.last_updated ≤ now - 30)
  let app :=
    if timedout then
      match pidLive app.get_pid with
      | some true =>
          let app := app.set_status Status.Warning
          let app := app.push_error
            ⟨"AppState", "TIMMED OUT. LAST UPDATED " ++ toString state.last_updated⟩
          { app with uptime := some (now - app.timestamp) }
      | some false =>
          let app := app.set_status Status.Stopped
          { app with metrics := none, uptime := none }
      | none => { app with metrics := none, uptime := none }
    else app
  let running : Bool :=
    decide (app.get_status ≠ Status.Unknown ∧ app.get_status ≠ Status.Stopping ∧
      app.get_status ≠ Status.Stopped)
  let app := if !running then { app with uptime := none } else app
  if running && !timedout then
    { app with uptime := some (now - app.timestamp) }
  else app

/-- `calculate_uptime` of `src/applications/monitor.rs`: first
`check_balances`, then the timeout / liveness classification and the
uptime recomputation of `calculate_uptime_tail`. `pidLive` is the
`is_pid_active` oracle (`none` = the `Err` arm of the source's
`if let Ok(active)`). -/
def calculate_uptime (now : Nat) (pidLive : Nat → Option Bool)
    (app : AppStatus) (state : AppState) : AppStatus :=
  calculate_uptime_tail now pidLive (check_balances now app) state

/-- The loop body of `update_client_state`
(`src/applications/monitor.rs`) for one status entry that has a catalog
match: import the fresh state, then either clear errors and mark
`Stopped` (PID dead) or truncate the error log to 5 and stdout/stderr to
their latest 500 lines (PID live), then classify. `none` models the `?`
propagation of an `is_pid_active` error. -/
def update_client_entry (now : Nat) (pidLive : Nat → Option Bool)
    (app : AppStatus) (state : AppState) : Option AppStatus :=
  let app := app.update_state state
  match pidLive state.pid with
  | none => none
  | some false =>
      let app := (app.clear_errors).set_status Status.Stopped
      some (calculate_uptime now pidLive app state)
  | some true =>
      let st := app.app_data.state
      let st := { st with error_log := st.error_log.take 5 }
      let st :=
        if st.stdout.isEmpty then st
        else { st with stdout := ((st.stdout.reverse).take 500).reverse }
      let st :=
        if st.stderr.isEmpty then st
        else { st with stderr := ((st.stderr.reverse).take 500).reverse }
      let app := { app with app_data := { app.app_data with state := st } }
      some (calculate_uptime now pidLive app state)

/-! ## Lifecycle controller (`src/applications/start_stop.rs`) -/

/-- `SupervisedProcesses`: a supervised handle, either a spawned child or
an adopted process; both expose a PID. -/
inductive SupervisedProcesses where
  | Child (pid : Nat)
  | Process (pid : Nat)
deriving DecidableEq, Repr

/-- The PID exposed by a supervised handle (`get_pid`). -/
def SupervisedProcesses.pid : SupervisedProcesses → Nat
  | .Child p => p
  | .Process p => p

/-- Process-level effects a lifecycle or dispatcher call can perform.
`sigkill pid` is `kill(pid, 9)`; `unitKill name` is a kill through the
init-system unit service (present in the spec's description, used by the
spec-modelled variant below). -/
inductive Effect where
  | sigkill (pid : Nat)
  | unitKill (name : String)
deriving DecidableEq, Repr

/-- Outcome of `stop_application`. -/
inductive StopOutcome where
  | ok
  | notFound (msg : String)
  | ioErr (code : Int)
deriving DecidableEq, Repr

/-- The shared maps `stop_application` touches: the status registry and
the two handler maps. -/
structure StopState where
  registry : List (String × AppStatus)
  sysHandler : List (String × SupervisedProcesses)
  cliHandler : List (String × SupervisedProcesses)
deriving Repr

/-- Point update of an association list (the effect of mutating through
`get_mut`). -/
def updateEntry (m : List (String × AppStatus)) (k : String)
    (v : AppStatus) : List (String × AppStatus) :=
  m.map fun p => if p.1 = k then (p.1, v) else p

/-- `HashMap::remove` on the association-list model: the removed value
and the map without the key. -/
def removeKey (m : List (String × SupervisedProcesses)) (k : String) :
    Option SupervisedProcesses × List (String × SupervisedProcesses) :=
  (m.lookup k, m.filter fun p => p.1 ≠ k)

/-- `send_stop` of `src/applications/start_stop.rs`: `kill(pid, 9)`,
error when the libc call returns nonzero. `killRes` is the oracle for the
libc return value. -/
def send_stop (killRes : Nat → Int) (pid : Nat) : StopOutcome :=
  if killRes pid = 0 then .ok else .ioErr (killRes pid)

/-- `stop_application` of `src/applications/start_stop.rs`: mark
`Stopping`; remove the handle from the handler map selected by
`is_system_application`, keyed by the app's name; if a handle was owned,
mark `Stopped`, clear metrics and uptime, and `send_stop` (SIGKILL) its
PID; if no handle was owned, return ok; if the id is not registered,
return `NotFound`. Returns the outcome, the updated maps, and the
performed effects. -/
def stop_application (killRes : Nat → Int) (σ : StopState)
    (app_id : String) : StopOutcome × StopState × List Effect :=
  match σ.registry.lookup app_id with
  | none => (.notFound (app_id ++ ", Not registered in the system"), σ, [])
  | some app0 =>
      let app := app0.set_status Status.Stopping
      let σ := { σ with registry := updateEntry σ.registry app_id app }
      let name := app.app_data.state.name
      let pulled :=
        if app.app_data.state.system_application then
          let (c, m) := removeKey σ.sysHandler name
          (c, { σ with sysHandler := m })
        else
          let (c, m) := removeKey σ.cliHandler name
          (c, { σ with cliHandler := m })
      let σ := pulled.2
      match pulled.1 with
      | some child =>
          let app := { app.set_status Status.Stopped with
                        metrics := none, uptime := none }
          let σ := { σ with registry := updateEntry σ.registry app_id app }
          (send_stop killRes child.pid, σ, [.sigkill child.pid])
      | none => (.ok, σ, [])

/-- Modelled from the spec: the kill phase of `stop_application` as §4.6
words it — "kill via unit service; if the unit still reports active,
escalate with SIGKILL to the PID". Used only to compare the claimed
behaviour with the source's `send_stop` path. -/
def stop_kill_effects_spec (unitActive : String → Bool) (name : String)
    (pid : Nat) : List Effect :=
  [Effect.unitKill name] ++ (if unitActive name then [Effect.sigkill pid] else [])

/-! ## Command dispatcher (`src/network.rs`) -/

/-- `artisan_middleware::aggregator::CommandType`; `Custom` also stands
for the remaining variants the dispatcher's wildcard arm catches. -/
inductive CommandType where
  | Start
  | Stop
  | Restart
  | Status
  | AllStatus
  | Info
  | Custom (s : String)
deriving DecidableEq, Repr

/-- An incoming `Command`. -/
structure Command where
  command_type : CommandType
  app_id : String
deriving DecidableEq, Repr

/-- `CommandResponse` as built by the dispatcher. -/
structure CommandResponse where
  app_id : String
  command_type : CommandType
  success : Bool
  message : Option String
deriving DecidableEq, Repr

/-- The `AppMessage` payloads the dispatcher can return. -/
inductive AppMessage where
  | Response (r : CommandResponse)
  | ManagerInfo
deriving DecidableEq, Repr

/-- Effects of one dispatcher call: lifecycle calls and the manager's own
signal flags. -/
inductive NetEffect where
  | signalShutdown
  | signalReload
  | startApp (id : String)
  | stopApp (id : String)
  | reloadApp (id : String)
deriving DecidableEq, Repr

/-- `command_processor` of `src/network.rs`.

* `gsOk` — `GLOBAL_STATE.get()` and `get_state_clone()` both succeeded;
* `gateOk` — `wait_for_network_control_with_timeout(1 s)` succeeded;
* `startRes` / `stopRes` / `reloadRes` — outcome oracles for
  `start_application` / `stop_application` / `reload_application`, the
  `Except` error being the surfaced `err.to_string()`;
* `registry` — the `APP_STATUS_ARRAY` contents;
* `jsonOf` — the `AppStatus::to_json` serializer of the middleware
  (opaque here).

Returns the dispatcher's `Result<AppMessage, _>` and the effects
performed. -/
def command_processor (gsOk : Bool) (gateOk : Bool)
    (startRes stopRes reloadRes : String → Except String Unit)
    (registry : List (String × AppStatus)) (jsonOf : AppStatus → Option String)
    (command : Command) : Except String AppMessage × List NetEffect :=
  if !gsOk then
    (.error "Failed to get the app state from the global state", [])
  else if !gateOk then
    (.ok (.Response { app_id := "", command_type := command.command_type,
                      success := false,
                      message := some "Server not accepting requests" }), [])
  else
    let app_id := command.app_id
    match command.command_type with
    | .Start =>
        match startRes app_id with
        | .ok _ =>
            (.ok (.Response { app_id, command_type := .Start,
                              success := true, message := none }),
             [.startApp app_id])
        | .error e =>
            (.ok (.Response { app_id, command_type := .Start,
                              success := false, message := some e }),
             [.startApp app_id])
    | .Stop =>
        if app_id = "ais_manager" then
          (.ok (.Response { app_id, command_type := .Restart,
                            success := true,
                            message := some "triggered manager shutdown !" }),
           [.signalShutdown])
        else
          match stopRes app_id with
          | .ok _ =>
              (.ok (.Response { app_id, command_type := .Stop,
                                success := true, message := none }),
               [.stopApp app_id])
          | .error e =>
              (.ok (.Response { app_id, command_type := .Stop,
                                success := false, message := some e }),
               [.stopApp app_id])
    | .Restart =>
        if app_id = "ais_manager" then
          (.ok (.Response { app_id, command_type := .Restart,
                            success := true, message := none }),
           [.signalReload])
        else
          match reloadRes app_id with
          | .ok _ =>
              (.ok (.Response { app_id, command_type := .Restart,
                                success := true, message := none }),
               [.reloadApp app_id])
          | .error e =>
              (.ok (.Response { app_id, command_type := .Restart,
                                success := false, message := some e }),
               [.reloadApp app_id])
    | .Status =>
        match registry.lookup app_id with
        | some app =>
            let app := { app with timestamp := 0 }
            (.ok (.Response { app_id, command_type := .Status,
                              success := true, message := jsonOf app }), [])
        | none =>
            (.ok (.Response { app_id, command_type := .Status,
                              success := false,
                              message := some ("The app: " ++ app_id ++
                                ", wasn't in our store") }), [])
    | .AllStatus =>
        let data := String.join
          (registry.map fun p => ((jsonOf p.2).getD "") ++ ",")
        (.ok (.Response { app_id, command_type := .AllStatus,
                          success := true,
                          message := some
                            (("[" ++ data ++ "]").replace ",]" "]") }), [])
    | .Info => (.ok .ManagerInfo, [])
    | .Custom _ =>
        (.ok (.Response { app_id,
                          command_type := .Custom "command not found",
                          success := false,
                          message := some "Request not implemented" }), [])

/-! ## Resolver filter (`src/applications/resolve.rs`) -/

/-- `SYSTEMAPPLICATIONS` of `src/applications/resolve.rs` line 18. -/
def SYSTEMAPPLICATIONS : List String := ["gitmon", "self", "mailler"]

/-- Fuel-driven core of Rust `str::replace`: replace the leftmost
non-overlapping occurrences of `pat`, scanning left to right. The fuel is
the input length, enough because every step consumes at least one
character of the input. -/
def replaceAllAux (pat rep : List Char) : Nat → List Char → List Char
  | _, [] => []
  | 0, s => s
  | fuel + 1, c :: rest =>
      if pat ≠ [] ∧ pat.isPrefixOf (c :: rest) then
        rep ++ replaceAllAux pat rep fuel ((c :: rest).drop pat.length)
      else
        c :: replaceAllAux pat rep fuel rest

/-- Rust `str::replace(pat, rep)` — all occurrences, left to right,
non-overlapping. (Embedded character-wise; `String.replace` of the Lean
core is extensionally the same but is not kernel-reducible.) -/
def rust_replace (s pat rep : String) : String :=
  (replaceAllAux pat.toList rep.toList s.toList.length s.toList).asString

/-- The `client_applications_names` filter chain of
`resolve_client_applications`: from the binary-directory file names, drop
members of `SYSTEMAPPLICATIONS`, then keep names whose form with every
occurrence of `"ais_"` removed (Rust `str::replace`) is one of the git
project-id hashes. Only the surviving names are spawned into
`ClientApplication` construction tasks. -/
def client_applications_names (application_list : List String)
    (git_project_hashes : List String) : List String :=
  (application_list.filter fun d => !(SYSTEMAPPLICATIONS.contains d)).filter
    fun d => git_project_hashes.contains (rust_replace d "ais_" "")

/-- The claim's wording of the stripped form: the `"ais_"` *prefix*
removed. Kept separate from the source's replace-all form to compare the
two. -/
def stripAisPrefix (s : String) : String :=
  if "ais_".toList.isPrefixOf s.toList then (s.toList.drop 4).asString else s

/-- Modelled from the spec: the survivor filter as the claim words it —
drop system-app collisions and names whose prefix-stripped form is not a
project-id hash. -/
def client_applications_names_spec (application_list : List String)
    (git_project_hashes : List String) : List String :=
  (application_list.filter fun d => !(SYSTEMAPPLICATIONS.contains d)).filter
    fun d => git_project_hashes.contains (stripAisPrefix d)

/-! ## Registry maintenance (`src/status.rs`, `src/main.rs`)

`trim` and `deregister_app` never inspect the stored values, so they are
embedded generically over the value type of the map. -/

/-- `trim` of `src/status.rs`: when the store holds at least 600 entries,
collect the first `len − 600` iterated keys and remove them. -/
def trim (store : List (String × α)) : List (String × α) :=
  if store.length ≥ 600 then
    let excess := store.length - 600
    let keys_to_remove := (store.map Prod.fst).take excess
    store.filter fun p => !(keys_to_remove.contains p.1)
  else store

/-- `deregister_app` of `src/main.rs`: on a `Deregister` message, remove
the entry whose key is the message's `app_id` (a no-op when absent). -/
def deregister_app (app_id : String) (store : List (String × α)) :
    List (String × α) :=
  store.filter fun p => p.1 ≠ app_id


/-! ## Derived small definitions and concrete inputs used in proofs -/

/-- The timeout error pushed by `calculate_uptime`. -/
def timeoutErr (state : AppState) : ErrorItem :=
  ⟨"AppState", "TIMMED OUT. LAST UPDATED " ++ toString state.last_updated⟩

/-- The `running` predicate of `calculate_uptime` as a function of a
status. -/
def running_status (s : Status) : Bool :=
  decide (s ≠ Status.Unknown ∧ s ≠ Status.Stopping ∧ s ≠ Status.Stopped)

/-- A concrete stale state file: pid 7, `Running`, `last_updated = 10`. -/
def staleState : AppState :=
  ⟨"a", 7, Status.Running, 10, false, [], [], []⟩

/-- A concrete registry entry holding `staleState`. -/
def staleApp : AppStatus :=
  ⟨"a", ⟨staleState⟩, some 3, none, 40⟩

/-- A concrete `Running` entry with one logged error. -/
def runningErrApp : AppStatus :=
  ⟨"b", ⟨⟨"b", 8, Status.Running, 100, false, [⟨"Io", "boom"⟩], [], []⟩⟩,
    some 1, none, 50⟩

/-- A concrete fresh state file: pid 8, `Running`, no errors. -/
def cleanState : AppState :=
  ⟨"b", 8, Status.Running, 100, false, [], [], []⟩

/-- A concrete registry entry holding `cleanState`. -/
def cleanApp : AppStatus :=
  ⟨"b", ⟨cleanState⟩, some 1, none, 50⟩

/-- A concrete fresh state file whose status is `Idle`. -/
def idleState : AppState :=
  ⟨"c", 9, Status.Idle, 100, false, [], [], []⟩

/-- A concrete registry entry holding `idleState`. -/
def idleApp : AppStatus :=
  ⟨"c", ⟨idleState⟩, none, none, 40⟩

/-- A fresh `Running` state with 20 logged errors and 520 stderr lines
(numbered, so the retained order is visible). -/
def manyLinesState : AppState :=
  ⟨"d", 11, Status.Running, 100, false,
    (List.range 20).map (fun i => ⟨"E", toString i⟩), [],
    (List.range 520).map toString⟩

/-- A concrete registry entry holding `manyLinesState`. -/
def manyLinesApp : AppStatus :=
  ⟨"d", ⟨manyLinesState⟩, none, none, 40⟩

/-- A timed-out `Running` state with 20 logged errors. -/
def staleErrState : AppState :=
  ⟨"e", 12, Status.Running, 10, false,
    List.replicate 20 ⟨"Io", "x"⟩, [], []⟩

/-- A concrete registry entry holding `staleErrState`. -/
def staleErrApp : AppStatus :=
  ⟨"e", ⟨staleErrState⟩, none, none, 40⟩

/-- A concrete system application entry (name `nx`, pid 55) for the
lifecycle witness. -/
def stopApp0 : AppStatus :=
  ⟨"x", ⟨⟨"nx", 55, Status.Running, 100, true, [], [], []⟩⟩, some 1,
    some ⟨1, 2⟩, 40⟩

/-- Registry and handler maps owning `stopApp0` through the system
handler. -/
def stopStateW : StopState :=
  ⟨[("x", stopApp0)], [("nx", SupervisedProcesses.Process 55)], []⟩

/-- A concrete system application entry (name `n1`, pid 77) for the
lifecycle counterexample. -/
def c4App : AppStatus :=
  ⟨"app1", ⟨⟨"n1", 77, Status.Running, 100, true, [], [], []⟩⟩, some 2,
    none, 40⟩

/-- Registry and handler maps owning `c4App` through the system
handler. -/
def stopStateC4 : StopState :=
  ⟨[("app1", c4App)], [("n1", SupervisedProcesses.Process 77)], []⟩

/-- 601 registry entries with numeric string keys (values irrelevant to
`trim`). -/
def store601 : List (String × Nat) :=
  (List.range 601).map fun i => (toString i, 0)

/-! ## Helper lemmas about the classifier -/

theorem check_balances_get_pid (now : Nat) (app : AppStatus) :
    (check_balances now app).get_pid = app.get_pid := by
  simp only [check_balances]
  split_ifs <;> rfl

theorem check_balances_stdout (now : Nat) (app : AppStatus) :
    (check_balances now app).app_data.state.stdout =
      app.app_data.state.stdout := by
  simp only [check_balances]
  split_ifs <;> rfl

theorem check_balances_stderr (now : Nat) (app : AppStatus) :
    (check_balances now app).app_data.state.stderr =
      app.app_data.state.stderr := by
  simp only [check_balances]
  split_ifs <;> rfl

/-- `reverse`, `truncate(n)`, `reverse` — the source's idiom for "keep
the last `n` lines" — is `drop (length - n)`: the suffix of the latest
`n` lines in their original order. -/
theorem reverse_take_reverse (l : List α) (n : Nat) :
    (l.reverse.take n).reverse = l.drop (l.length - n) := by
  rw [List.take_reverse, List.reverse_reverse]

/-- `check_balances` leaves the error log alone when the status is
neither `Stopped` nor `Unknown`. -/
theorem check_balances_error_log_of_ne (now : Nat) (app : AppStatus)
    (h1 : app.get_status ≠ Status.Stopped)
    (h2 : app.get_status ≠ Status.Unknown) :
    (check_balances now app).app_data.state.error_log =
      app.app_data.state.error_log := by
  simp only [AppStatus.get_status] at h1 h2
  simp only [check_balances]
  split_ifs <;>
    simp_all [AppStatus.get_status, AppStatus.set_status,
      AppStatus.clear_errors, AppStatus.no_errors]

/-- `check_balances` never leaves a `Running` entry with a non-empty
error log. -/
theorem check_balances_running_no_errors (now : Nat) (app : AppStatus)
    (h : (check_balances now app).get_status = Status.Running) :
    (check_balances now app).app_data.state.error_log = [] := by
  simp only [check_balances] at *
  split_ifs at * <;>
    simp_all [AppStatus.get_status, AppStatus.set_status,
      AppStatus.clear_errors, AppStatus.no_errors, List.isEmpty_iff]

/-- Status after `calculate_uptime_tail`. -/
theorem tail_get_status (now : Nat) (pidLive : Nat → Option Bool)
    (app : AppStatus) (state : AppState) :
    (calculate_uptime_tail now pidLive app state).get_status =
      (if state.last_updated ≤ now - 30 then
        match pidLive app.get_pid with
        | some true => Status.Warning
        | some false => Status.Stopped
        | none => app.get_status
       else app.get_status) := by
  by_cases ht : state.last_updated ≤ now - 30 <;>
    rcases hp : pidLive app.get_pid with _ | b <;> try cases b
  all_goals
    simp only [calculate_uptime_tail, hp, ht, decide_eq_true_eq, if_true,
      if_false, ite_true, ite_false]
  all_goals split_ifs <;>
    simp_all [AppStatus.get_status, AppStatus.set_status,
      AppStatus.push_error]

/-- Error log after `calculate_uptime_tail`. -/
theorem tail_error_log (now : Nat) (pidLive : Nat → Option Bool)
    (app : AppStatus) (state : AppState) :
    (calculate_uptime_tail now pidLive app state).app_data.state.error_log
      = (if state.last_updated ≤ now - 30 then
          match pidLive app.get_pid with
          | some true =>
              app.app_data.state.error_log ++ [timeoutErr state]
          | some false => app.app_data.state.error_log
          | none => app.app_data.state.error_log
         else app.app_data.state.error_log) := by
  by_cases ht : state.last_updated ≤ now - 30 <;>
    rcases hp : pidLive app.get_pid with _ | b <;> try cases b
  all_goals
    simp only [calculate_uptime_tail, hp, ht, decide_eq_true_eq, if_true,
      if_false, ite_true, ite_false]
  all_goals split_ifs <;>
    simp_all [AppStatus.get_status, AppStatus.set_status,
      AppStatus.push_error, timeoutErr]

/-- Uptime after `calculate_uptime_tail`. -/
theorem tail_uptime (now : Nat) (pidLive : Nat → Option Bool)
    (app : AppStatus) (state : AppState) :
    (calculate_uptime_tail now pidLive app state).uptime =
      (if state.last_updated ≤ now - 30 then
        match pidLive app.get_pid with
        | some true => some (now - app.timestamp)
        | some false => none
        | none => none
       else
        if running_status app.get_status then some (now - app.timestamp)
        else none) := by
  by_cases ht : state.last_updated ≤ now - 30 <;>
    rcases hp : pidLive app.get_pid with _ | b <;> try cases b
  all_goals
    simp only [calculate_uptime_tail, running_status, hp, ht,
      decide_eq_true_eq, if_true, if_false, ite_true, ite_false]
  all_goals split_ifs <;>
    simp_all [AppStatus.get_status, AppStatus.set_status,
      AppStatus.push_error]

/-- Metrics after `calculate_uptime_tail`. -/
theorem tail_metrics (now : Nat) (pidLive : Nat → Option Bool)
    (app : AppStatus) (state : AppState) :
    (calculate_uptime_tail now pidLive app state).metrics =
      (if state.last_updated ≤ now - 30 then
        match pidLive app.get_pid with
        | some true => app.metrics
        | some false => none
        | none => none
       else app.metrics) := by
  by_cases ht : state.last_updated ≤ now - 30 <;>
    rcases hp : pidLive app.get_pid with _ | b <;> try cases b
  all_goals
    simp only [calculate_uptime_tail, hp, ht, decide_eq_true_eq, if_true,
      if_false, ite_true, ite_false]
  all_goals split_ifs <;>
    simp_all [AppStatus.get_status, AppStatus.set_status,
      AppStatus.push_error]

/-- Stdout after `calculate_uptime_tail` (never touched). -/
theorem tail_stdout (now : Nat) (pidLive : Nat → Option Bool)
    (app : AppStatus) (state : AppState) :
    (calculate_uptime_tail now pidLive app state).app_data.state.stdout
      = app.app_data.state.stdout := by
  by_cases ht : state.last_updated ≤ now - 30 <;>
    rcases hp : pidLive app.get_pid with _ | b <;> try cases b
  all_goals
    simp only [calculate_uptime_tail, hp, ht, decide_eq_true_eq, if_true,
      if_false, ite_true, ite_false]
  all_goals split_ifs <;>
    simp_all [AppStatus.get_status, AppStatus.set_status,
      AppStatus.push_error]

/-- Stderr after `calculate_uptime_tail` (never touched). -/
theorem tail_stderr (now : Nat) (pidLive : Nat → Option Bool)
    (app : AppStatus) (state : AppState) :
    (calculate_uptime_tail now pidLive app state).app_data.state.stderr
      = app.app_data.state.stderr := by
  by_cases ht : state.last_updated ≤ now - 30 <;>
    rcases hp : pidLive app.get_pid with _ | b <;> try cases b
  all_goals
    simp only [calculate_uptime_tail, hp, ht, decide_eq_true_eq, if_true,
      if_false, ite_true, ite_false]
  all_goals split_ifs <;>
    simp_all [AppStatus.get_status, AppStatus.set_status,
      AppStatus.push_error]

/-- `calculate_uptime` (one full classification of one entry) never
leaves a `Running` entry with a non-empty error log. -/
theorem calculate_uptime_running_no_errors (now : Nat)
    (pidLive : Nat → Option Bool) (app : AppStatus) (state : AppState)
    (h : (calculate_uptime now pidLive app state).get_status =
      Status.Running) :
    (calculate_uptime now pidLive app state).app_data.state.error_log =
      [] := by
  have hcb := check_balances_running_no_errors now app
  simp only [calculate_uptime] at h ⊢
  rw [tail_get_status, check_balances_get_pid] at h
  rw [tail_error_log, check_balances_get_pid]
  by_cases ht : state.last_updated ≤ now - 30 <;>
    rcases hp : pidLive app.get_pid with _ | b <;> try cases b
  all_goals
    simp only [hp, ht, if_true, if_false, ite_true, ite_false] at h ⊢
  all_goals simp_all

/-! ## C1 -/

/-- **C1.** An `AppStatus` whose state-file `last_updated` is older than
30 seconds and whose PID the liveness check reports dead comes out of one
`calculate_uptime` pass with status `Stopped`, `metrics = none` and
`uptime = none`. -/
theorem calculate_uptime_stale_dead_stops (now : Nat)
    (pidLive : Nat → Option Bool) (app : AppStatus) (state : AppState)
    (htime : state.last_updated ≤ now - 30)
    (hdead : pidLive app.get_pid = some false) :
    (calculate_uptime now pidLive app state).get_status = Status.Stopped ∧
    (calculate_uptime now pidLive app state).metrics = none ∧
    (calculate_uptime now pidLive app state).uptime = none := by
  refine ⟨?_, ?_, ?_⟩
  · rw [calculate_uptime, tail_get_status, check_balances_get_pid, hdead,
      if_pos htime]
  · rw [calculate_uptime, tail_metrics, check_balances_get_pid, hdead,
      if_pos htime]
  · rw [calculate_uptime, tail_uptime, check_balances_get_pid, hdead,
      if_pos htime]

/-- Witness for C1 at a concrete input. -/
theorem calculate_uptime_stale_dead_stops_witness :
    staleState.last_updated ≤ 100 - 30 ∧
    (calculate_uptime 100 (fun _ => some false) staleApp
        staleState).get_status = Status.Stopped := by
  refine ⟨by decide, ?_⟩
  exact (calculate_uptime_stale_dead_stops 100 (fun _ => some false)
    staleApp staleState (by decide) rfl).1

/-! ## C2 -/

/-- **C2.** A `Running` entry with a non-empty error log is downgraded to
`Warning` by `check_balances`, and no entry is still `Running` with a
non-empty error log after a full `calculate_uptime` classification. -/
theorem running_with_errors_downgraded (now : Nat)
    (pidLive : Nat → Option Bool) (app : AppStatus) (state : AppState) :
    (app.get_status = Status.Running ∧ app.no_errors = false →
      (check_balances now app).get_status = Status.Warning) ∧
    ((calculate_uptime now pidLive app state).get_status =
        Status.Running →
      (calculate_uptime now pidLive app state).app_data.state.error_log
        = []) := by
  constructor
  · rintro ⟨hs, he⟩
    simp only [AppStatus.get_status] at hs
    simp only [AppStatus.no_errors] at he
    simp [check_balances, hs, he, AppStatus.set_status,
      AppStatus.get_status, AppStatus.no_errors]
  · exact calculate_uptime_running_no_errors now pidLive app state

/-- Witness for C2 at concrete inputs: the downgrade fires, and a clean
entry that stays `Running` indeed has an empty error log. -/
theorem running_with_errors_downgraded_witness :
    (check_balances 100 runningErrApp).get_status = Status.Warning ∧
    (calculate_uptime 100 (fun _ => some true) cleanApp
        cleanState).app_data.state.error_log = [] := by
  constructor
  · exact (running_with_errors_downgraded 100 (fun _ => some true)
      runningErrApp cleanState).1 ⟨rfl, rfl⟩
  · exact (running_with_errors_downgraded 100 (fun _ => some true)
      cleanApp cleanState).2 (by decide)

/-! ## C3 -/

/-- **C3 counterexample.** An `Idle` entry with a fresh state file comes
out of `calculate_uptime` with `uptime = Some _` although its status is
`Idle` — not one of `Running`, `Warning`, `Starting` — and the state is
not timed out, so "`uptime.is_some` iff status ∈ {Running, Warning,
Starting} and not timed out" fails as stated. -/
theorem uptime_iff_claim_fails_on_idle :
    ¬ idleState.last_updated ≤ 100 - 30 ∧
    (calculate_uptime 100 (fun _ => some true) idleApp
        idleState).uptime.isSome = true ∧
    (calculate_uptime 100 (fun _ => some true) idleApp
        idleState).get_status = Status.Idle := by
  decide

/-- **C3 (amended).** After one `calculate_uptime` pass, `uptime` is
`Some` iff either the state is not timed out and the resulting status is
none of `Unknown`, `Stopping`, `Stopped`, or the state is timed out and
the PID liveness check reported live. -/
theorem calculate_uptime_uptime_iff (now : Nat)
    (pidLive : Nat → Option Bool) (app : AppStatus) (state : AppState) :
    (calculate_uptime now pidLive app state).uptime.isSome = true ↔
      ((¬ state.last_updated ≤ now - 30) ∧
        running_status
          (calculate_uptime now pidLive app state).get_status = true) ∨
      (state.last_updated ≤ now - 30 ∧ pidLive app.get_pid = some true)
    := by
  rw [calculate_uptime, tail_uptime, tail_get_status,
    check_balances_get_pid]
  by_cases ht : state.last_updated ≤ now - 30 <;>
    rcases hp : pidLive app.get_pid with _ | b <;> try cases b
  all_goals simp only [ht, hp, if_true, if_false, ite_true, ite_false,
    not_true, not_false_iff, false_and, true_and, and_true, and_false,
    or_false, false_or, Option.isSome_some, Option.isSome_none]
  all_goals simp

/-! ## C7 -/

/-- **C7 (amended).** For a status entry with a catalog match whose PID
is live, one state-import iteration keeps exactly the latest 500 stdout
and stderr lines in their original relative order; the error log is
truncated to its first 5 items provided the imported status is neither
`Stopped` nor `Unknown` (for which `check_balances` clears the log) and
the state is not timed out (for which the pass appends a timeout
error). -/
theorem update_client_entry_truncates (now : Nat)
    (pidLive : Nat → Option Bool) (app : AppStatus) (state : AppState)
    (hlive : pidLive state.pid = some true)
    (hs1 : state.status ≠ Status.Stopped)
    (hs2 : state.status ≠ Status.Unknown)
    (ht : ¬ state.last_updated ≤ now - 30) :
    ∃ r, update_client_entry now pidLive app state = some r ∧
      r.app_data.state.stderr =
        state.stderr.drop (state.stderr.length - 500) ∧
      r.app_data.state.stdout =
        state.stdout.drop (state.stdout.length - 500) ∧
      r.app_data.state.error_log = state.error_log.take 5 := by
  simp only [update_client_entry, hlive]
  refine ⟨_, rfl, ?_, ?_, ?_⟩
  · rw [calculate_uptime, tail_stderr, check_balances_stderr]
    by_cases ho : state.stdout.isEmpty <;>
      by_cases he : state.stderr.isEmpty <;>
      simp_all [AppStatus.update_state, reverse_take_reverse,
        List.isEmpty_iff]
  · rw [calculate_uptime, tail_stdout, check_balances_stdout]
    by_cases ho : state.stdout.isEmpty <;>
      by_cases he : state.stderr.isEmpty <;>
      simp_all [AppStatus.update_state, reverse_take_reverse,
        List.isEmpty_iff]
  · rw [calculate_uptime, tail_error_log, if_neg ht,
      check_balances_error_log_of_ne]
    · by_cases ho : state.stdout.isEmpty <;>
        by_cases he : state.stderr.isEmpty <;>
        simp_all [AppStatus.update_state]
    · by_cases ho : state.stdout.isEmpty <;>
        by_cases he : state.stderr.isEmpty <;>
        simp_all [AppStatus.update_state, AppStatus.get_status]
    · by_cases ho : state.stdout.isEmpty <;>
        by_cases he : state.stderr.isEmpty <;>
        simp_all [AppStatus.update_state, AppStatus.get_status]

/-- Witness for C7: a live entry with 520 numbered stderr lines and 20
errors keeps stderr lines 20..519 in order and the first 5 errors. -/
theorem update_client_entry_truncates_witness :
    ∃ r, update_client_entry 100 (fun _ => some true) manyLinesApp
        manyLinesState = some r ∧
      r.app_data.state.stderr =
        manyLinesState.stderr.drop (manyLinesState.stderr.length - 500) ∧
      r.app_data.state.stdout =
        manyLinesState.stdout.drop (manyLinesState.stdout.length - 500) ∧
      r.app_data.state.error_log = manyLinesState.error_log.take 5 :=
  update_client_entry_truncates 100 (fun _ => some true) manyLinesApp
    manyLinesState rfl (by decide) (by decide) (by decide)

/-- **C7 counterexample.** When a live entry is simultaneously timed out,
the pass appends a timeout error after the truncation: a 20-error state
file comes out with 6 error items, not 5, so the claim fails as
stated. -/
theorem truncation_claim_fails_when_timed_out :
    staleErrState.error_log.length = 20 ∧
    (update_client_entry 100 (fun _ => some true) staleErrApp
        staleErrState).map
      (fun r => r.app_data.state.error_log.length) = some 6 := by
  decide

/-! ## C5 -/

/-- **C5.** A `Stop` command for `ais_manager` itself does not call
`stop_application`; it signals shutdown and returns a success response
with message `"triggered manager shutdown !"`; a `Restart` command for
`ais_manager` signals reload and returns success. -/
theorem manager_self_stop_signals_shutdown
    (startRes stopRes reloadRes : String → Except String Unit)
    (registry : List (String × AppStatus))
    (jsonOf : AppStatus → Option String) :
    command_processor true true startRes stopRes reloadRes registry
        jsonOf ⟨CommandType.Stop, "ais_manager"⟩ =
      (.ok (.Response ⟨"ais_manager", CommandType.Restart, true,
          some "triggered manager shutdown !"⟩),
        [NetEffect.signalShutdown]) ∧
    command_processor true true startRes stopRes reloadRes registry
        jsonOf ⟨CommandType.Restart, "ais_manager"⟩ =
      (.ok (.Response ⟨"ais_manager", CommandType.Restart, true, none⟩),
        [NetEffect.signalReload]) ∧
    ∀ id, NetEffect.stopApp id ∉
      (command_processor true true startRes stopRes reloadRes registry
        jsonOf ⟨CommandType.Stop, "ais_manager"⟩).2 := by
  have h : command_processor true true startRes stopRes reloadRes
      registry jsonOf ⟨CommandType.Stop, "ais_manager"⟩ =
      (.ok (.Response ⟨"ais_manager", CommandType.Restart, true,
          some "triggered manager shutdown !"⟩),
        [NetEffect.signalShutdown]) := rfl
  refine ⟨h, rfl, fun id => ?_⟩
  rw [h]
  simp

/-! ## C6 -/

/-- **C6.** When the pause gate cannot be acquired within its timeout,
the dispatcher returns a well-formed failure response — success `false`,
message `"Server not accepting requests"` — for every command, with no
effect performed and no error raised. -/
theorem gate_timeout_returns_failure_response
    (startRes stopRes reloadRes : String → Except String Unit)
    (registry : List (String × AppStatus))
    (jsonOf : AppStatus → Option String) (cmd : Command) :
    command_processor true false startRes stopRes reloadRes registry
        jsonOf cmd =
      (.ok (.Response ⟨"", cmd.command_type, false,
          some "Server not accepting requests"⟩), []) := rfl

/-! ## C10 -/

/-- **C10.** The success reply to `Stop` for `ais_manager` echoes
command type `Restart`, not `Stop`, so matching on the echoed type cannot
distinguish it from a `Restart` reply. -/
theorem self_stop_reply_echoes_restart
    (startRes stopRes reloadRes : String → Except String Unit)
    (registry : List (String × AppStatus))
    (jsonOf : AppStatus → Option String) :
    (command_processor true true startRes stopRes reloadRes registry
        jsonOf ⟨CommandType.Stop, "ais_manager"⟩).1 =
      .ok (.Response ⟨"ais_manager", CommandType.Restart, true,
        some "triggered manager shutdown !"⟩) ∧
    (command_processor true true startRes stopRes reloadRes registry
        jsonOf ⟨CommandType.Restart, "ais_manager"⟩).1 =
      .ok (.Response ⟨"ais_manager", CommandType.Restart, true, none⟩) ∧
    CommandType.Restart ≠ CommandType.Stop :=
  ⟨rfl, rfl, by decide⟩

/-! ## Association-list helpers -/

theorem lookup_updateEntry (m : List (String × AppStatus)) (k : String)
    (v : AppStatus) :
    (updateEntry m k v).lookup k = (m.lookup k).map fun _ => v := by
  induction m with
  | nil => rfl
  | cons p m ih =>
      rcases p with ⟨a, b⟩
      simp only [updateEntry, List.map_cons] at *
      by_cases h : a = k
      · rw [if_pos h]
        subst h
        simp [List.lookup, ih]
      · rw [if_neg h]
        have hb : (k == a) = false :=
          beq_eq_false_iff_ne.mpr fun e => h e.symm
        simp [List.lookup, hb, ih]

theorem lookup_filter_ne (m : List (String × β)) (k : String) :
    (m.filter fun p => p.1 ≠ k).lookup k = none := by
  induction m with
  | nil => rfl
  | cons p m ih =>
      rcases p with ⟨a, b⟩
      rw [List.filter_cons]
      by_cases h : a = k
      · have hp : (decide ((a, b).1 ≠ k)) = false := by simp [h]
        simp only [hp, Bool.false_eq_true, if_false]
        exact ih
      · have hp : (decide ((a, b).1 ≠ k)) = true := by simp [h]
        have hb : (k == a) = false :=
          beq_eq_false_iff_ne.mpr fun e => h e.symm
        simp only [hp, if_true]
        simp only [List.lookup, hb]
        exact ih

/-! ## C4 -/

/-- **C4 (amended).** `stop_application(id)` marks `Stopping`; removes
the handle from the handler map selected by the app's
`system_application` flag, keyed by the app's name; if a handle was
owned, marks `Stopped`, clears metrics and uptime, and sends SIGKILL
(signal 9) directly to the handle's PID — it never involves the
init-system unit service; if no handle was owned it returns ok with the
status left `Stopping`; an id absent from the registry yields
`NotFound`. -/
theorem stop_application_behavior (killRes : Nat → Int) (σ : StopState)
    (app_id : String) :
    (σ.registry.lookup app_id = none →
      stop_application killRes σ app_id =
        (.notFound (app_id ++ ", Not registered in the system"), σ,
          [])) ∧
    (∀ app0 c, σ.registry.lookup app_id = some app0 →
      (if app0.app_data.state.system_application then σ.sysHandler
       else σ.cliHandler).lookup app0.app_data.state.name = some c →
      (stop_application killRes σ app_id).1 = send_stop killRes c.pid ∧
      (stop_application killRes σ app_id).2.2 =
        [Effect.sigkill c.pid] ∧
      (stop_application killRes σ app_id).2.1.registry.lookup app_id =
        some { app0.set_status Status.Stopped with
                metrics := none, uptime := none } ∧
      (if app0.app_data.state.system_application then
        (stop_application killRes σ app_id).2.1.sysHandler
       else (stop_application killRes σ app_id).2.1.cliHandler).lookup
          app0.app_data.state.name = none) ∧
    (∀ app0, σ.registry.lookup app_id = some app0 →
      (if app0.app_data.state.system_application then σ.sysHandler
       else σ.cliHandler).lookup app0.app_data.state.name = none →
      (stop_application killRes σ app_id).1 = .ok ∧
      (stop_application killRes σ app_id).2.2 = [] ∧
      (stop_application killRes σ app_id).2.1.registry.lookup app_id =
        some (app0.set_status Status.Stopping)) ∧
    (∀ n, Effect.unitKill n ∉ (stop_application killRes σ app_id).2.2)
    := by
  refine ⟨?_, ?_, ?_, ?_⟩
  · intro h
    simp only [stop_application, h]
  · intro app0 c h hc
    by_cases hsys : app0.app_data.state.system_application <;>
      simp only [hsys, if_true, if_false, Bool.false_eq_true,
        reduceIte] at hc ⊢ <;>
      simp only [stop_application, h, removeKey, AppStatus.set_status,
        hsys, if_true, if_false, Bool.false_eq_true, reduceIte, hc] <;>
      refine ⟨by trivial, by trivial, ?_, lookup_filter_ne _ _⟩ <;>
      · rw [lookup_updateEntry, lookup_updateEntry, h]
        rfl
  · intro app0 h hc
    by_cases hsys : app0.app_data.state.system_application <;>
      simp only [hsys, if_true, if_false, Bool.false_eq_true,
        reduceIte] at hc ⊢ <;>
      simp only [stop_application, h, removeKey, AppStatus.set_status,
        hsys, if_true, if_false, Bool.false_eq_true, reduceIte, hc] <;>
      refine ⟨by trivial, by trivial, ?_⟩ <;>
      · rw [lookup_updateEntry, h]
        rfl
  · intro n
    rcases hl : σ.registry.lookup app_id with _ | a
    · simp [stop_application, hl]
    · by_cases hsys : a.app_data.state.system_application
      · rcases hcc : σ.sysHandler.lookup a.app_data.state.name with
          _ | c <;>
          simp [stop_application, hl, removeKey, AppStatus.set_status,
            hsys, hcc]
      · rcases hcc : σ.cliHandler.lookup a.app_data.state.name with
          _ | c <;>
          simp [stop_application, hl, removeKey, AppStatus.set_status,
            hsys, hcc]

/-- Witness for C4: the amended behaviour at a concrete owned system
handle, and the `NotFound` case at an empty registry. -/
theorem stop_application_behavior_witness :
    (stop_application (fun _ => 0) stopStateW "x").1 =
      send_stop (fun _ => 0) 55 ∧
    (stop_application (fun _ => 0) stopStateW "x").2.2 =
      [Effect.sigkill 55] ∧
    (stop_application (fun _ => 0) stopStateW "x").2.1.registry.lookup
      "x" = some { stopApp0.set_status Status.Stopped with
                    metrics := none, uptime := none } ∧
    stop_application (fun _ => 0) (⟨[], [], []⟩ : StopState) "y" =
      (.notFound ("y" ++ ", Not registered in the system"),
        (⟨[], [], []⟩ : StopState), []) := by
  obtain ⟨-, h2, -, -⟩ :=
    stop_application_behavior (fun _ => 0) stopStateW "x"
  obtain ⟨ha, hb, hreg, -⟩ :=
    h2 stopApp0 (SupervisedProcesses.Process 55) rfl (by decide)
  exact ⟨ha, hb, hreg,
    (stop_application_behavior (fun _ => 0) ⟨[], [], []⟩ "y").1 rfl⟩

/-- **C4 counterexample.** `stop_application` performs a direct SIGKILL
with no unit-service kill: on a concrete owned handle the effect trace is
`[sigkill 77]`, while the claim's kill discipline (§4.6: kill via the
unit service, SIGKILL only if the unit still reports active) would
produce `[unitKill]` for an inactive unit and `[unitKill, sigkill]` for
an active one — never a bare SIGKILL. -/
theorem stop_sends_sigkill_without_unit_service :
    (stop_application (fun _ => 0) stopStateC4 "app1").2.2 =
      [Effect.sigkill 77] ∧
    stop_kill_effects_spec (fun _ => false) "n1" 77 =
      [Effect.unitKill "n1"] ∧
    stop_kill_effects_spec (fun _ => true) "n1" 77 =
      [Effect.unitKill "n1", Effect.sigkill 77] ∧
    Effect.unitKill "n1" ∉
      (stop_application (fun _ => 0) stopStateC4 "app1").2.2 ∧
    Effect.sigkill 77 ∈
      (stop_application (fun _ => 0) stopStateC4 "app1").2.2 := by
  decide


/-! ## C8 -/

/-- **C8 counterexample.** The source strips `"ais_"` with Rust
`str::replace`, which removes every occurrence, not only a leading
prefix: the file name `bais_c` (no `ais_` prefix) with project-id set
`{bais_c}` survives under the claim's prefix reading but is dropped by
the code, whose stripped form is `bc`. -/
theorem stripped_prefix_claim_fails :
    client_applications_names ["bais_c"] ["bais_c"] = [] ∧
    client_applications_names_spec ["bais_c"] ["bais_c"] = ["bais_c"] ∧
    rust_replace "bais_c" "ais_" "" = "bc" ∧
    stripAisPrefix "bais_c" = "bais_c" := by
  decide

/-- **C8 (amended).** A binary-directory file name survives the
`resolve_client_applications` filter iff it is not literally a member of
`SYSTEMAPPLICATIONS` and its form with every occurrence of `"ais_"`
removed (Rust `str::replace`, not only a prefix strip) is a member of
the portal-credentials project-id set; only survivors are built into
`ClientApplication` entries. -/
theorem client_applications_names_mem (l hashes : List String)
    (n : String) :
    n ∈ client_applications_names l hashes ↔
      n ∈ l ∧ n ∉ SYSTEMAPPLICATIONS ∧
        rust_replace n "ais_" "" ∈ hashes := by
  simp only [client_applications_names, List.mem_filter, List.elem_iff,
    List.contains, Bool.not_eq_true']
  constructor
  · rintro ⟨⟨hl, hsys⟩, hh⟩
    exact ⟨hl, by simpa using hsys, by simpa [List.elem_iff] using hh⟩
  · rintro ⟨hl, hsys, hh⟩
    exact ⟨⟨hl, by simpa using hsys⟩, by simpa [List.elem_iff] using hh⟩

/-! ## C9 -/

set_option maxRecDepth 4000 in
/-- **C9 counterexample.** Registry entries are deleted during normal
operation: a received `Deregister` message removes the named entry, and
the periodic `trim` pass shrinks a 601-entry registry to 600. -/
theorem registry_entries_deleted_in_normal_operation :
    ("a", (0 : Nat)) ∈ [("a", (0 : Nat))] ∧
    deregister_app "a" [("a", (0 : Nat))] = [] ∧
    store601.length = 601 ∧
    (trim store601).length = 600 := by
  decide

/-- **C9 (amended).** `trim` leaves a registry of at most 600 entries
unchanged, but strictly shrinks any larger registry (removing the first
`len − 600` iterated keys); `deregister_app` removes a present entry.
Deletion is therefore not confined to the shutdown serialization. -/
theorem registry_deletion_behavior {α : Type} :
    (∀ store : List (String × α), store.length ≤ 600 →
      trim store = store) ∧
    (∀ store : List (String × α), 601 ≤ store.length →
      (trim store).length < store.length) ∧
    (∀ (store : List (String × α)) (id : String) (a : α),
      (id, a) ∈ store → (id, a) ∉ deregister_app id store) := by
  refine ⟨?_, ?_, ?_⟩
  · intro store h
    by_cases h6 : store.length ≥ 600
    · have h600 : store.length = 600 := le_antisymm h h6
      simp [trim, h600, List.filter]
    · simp [trim, h6]
  · intro store h
    have h6 : store.length ≥ 600 := by omega
    simp only [trim, if_pos h6]
    apply List.length_filter_lt_length_iff_exists.mpr
    rcases store with _ | ⟨p, t⟩
    · simp at h
    · refine ⟨p, List.mem_cons_self _ _, ?_⟩
      have hm : (p :: t).length - 600 = (t.length - 600) + 1 := by
        simp at h ⊢
        omega
      rw [hm]
      simp [List.take_succ_cons]
  · intro store id a hmem hcontra
    simp [deregister_app, List.mem_filter] at hcontra

/-- Witness for C9 at concrete inputs: a one-entry registry is left
alone by `trim`, the 601-entry registry shrinks, and a present entry is
gone after `deregister_app`. -/
theorem registry_deletion_behavior_witness :
    trim [("a", (0 : Nat))] = [("a", (0 : Nat))] ∧
    (trim store601).length < store601.length ∧
    ("a", (0 : Nat)) ∉ deregister_app "a" [("a", (0 : Nat))] := by
  obtain ⟨h1, h2, h3⟩ := registry_deletion_behavior (α := Nat)
  exact ⟨h1 _ (by decide), h2 store601 (by simp [store601]),
    h3 _ "a" 0 (by simp)⟩

end AisManager
